import Mathlib

/-!
# The bbob-noisy suite (`suite_bbob_noisy.c`)

A shallow embedding of `coco_get_bbob_noisy_problem`, the factory that maps a
triple (function, dimension, instance) to a call of one of the nine
noise-wrapping constructors, of the seed expressions it uses, and of the suite
functions `suite_bbob_noisy_initialize`, `suite_bbob_noisy_get_instances_by_year`
and `suite_bbob_noisy_get_problem`.

Conventions of the embedding.

* `size_t` is the 64-bit unsigned type and `long` the 64-bit signed type (LP64):
  a `size_t` value is a natural number below `2 ^ 64`, arithmetic on it is
  reduced modulo `2 ^ 64`, and the cast to `long` is the two's complement one.
* A `double` is represented by the rational number its expression denotes: the
  decimal literals of the source are exact and `1.0 / (double) dimension` is the
  exact quotient (for `dimension = 0`, where C yields an infinity, the quotient
  of the model is `0`). Rounding is not modelled: a computed value of the model
  differs from the double by the rounding error, so the theorems use a computed
  value only at the small dimensions of explicit examples, never to compare the
  values at arbitrary dimensions.
* A `double *` is an array together with an element offset.
* The calls of `printf` are left out, except for the side effect of their
  arguments (`distribution_theta++`).
* The code has no range check on the indices of the suite's arrays: a read at
  an index that is not a position of its array finds a word of the memory next
  to the array, which is a parameter of the model, and goes on with it.
-/

namespace BbobNoisy

/-! ## Machine integers -/

/-- The cast `(long) n` of a `size_t` value: values from `2 ^ 63` on wrap to the negatives. -/
def toLong (n : Nat) : Int :=
  if n % 2 ^ 64 < 2 ^ 63 then ((n % 2 ^ 64 : Nat) : Int) else ((n % 2 ^ 64 : Nat) : Int) - 2 ^ 64

/-- The seed expression `(long) (k + 10000 * instance)` of lines 72 to 79, evaluated in `size_t`. -/
def rseed_k (k inst : Nat) : Int :=
  toLong ((k + (10000 * inst) % 2 ^ 64) % 2 ^ 64)

/-- The expression `(uint32_t) (31 + 1000 + instance)` of line 81. -/
def coco_seed_of (inst : Nat) : Nat :=
  ((31 + 1000 + inst) % 2 ^ 64) % 2 ^ 32

/-! ## Pointers to doubles -/

/-- A `double *`: the array pointed into and the offset of the designated element. -/
structure DoublePtr where
  arr : List ℚ
  off : Nat
deriving DecidableEq, Repr

/-- The address `&arr[0]` of the first element of a local array. -/
def DoublePtr.first (arr : List ℚ) : DoublePtr := ⟨arr, 0⟩

/-- The dereference `*p`; `none` when `p` is outside its array. -/
def DoublePtr.deref (p : DoublePtr) : Option ℚ := p.arr.get? p.off

/-- The pointer `p + 1`, the value of `p` after `p++`. -/
def DoublePtr.next (p : DoublePtr) : DoublePtr := ⟨p.arr, p.off + 1⟩

/-! ## The constructors the factory calls -/

/-- The base problem allocators `f_<name>_bbob_problem_allocate` passed to the wrappers. -/
inductive BaseAllocator where
  | f_sphere
  | f_rosenbrock
  | f_step_ellipsoid
  | f_ellipsoid_rotated
  | f_different_powers
  | f_schaffers
  | f_griewank_rosenbrock
  | f_gallagher
deriving DecidableEq, Repr

/-- The noise-wrapping constructors `coco_problem_allocate_bbob_wrap_noisy_<name>`. -/
inductive NoisyWrapper where
  | gaussian
  | uniform
  | cauchy
  | gaussian_conditioned
  | uniform_conditioned
  | cauchy_conditioned
  | gaussian_gallagher
  | uniform_gallagher
  | cauchy_gallagher
deriving DecidableEq, Repr

/-- The argument between `rseed` and the templates: absent for the plain wrappers, a
`double` for the conditioned ones, a `size_t` peak count for the Gallagher ones. -/
inductive Extra where
  | absent
  | conditioning (c : ℚ)
  | n_peaks (n : Nat)
deriving DecidableEq, Repr

/-- One call of a noise-wrapping constructor, with its arguments in the order of the source. -/
structure WrapCall where
  wrapper : NoisyWrapper
  allocator : BaseAllocator
  function : Nat
  dimension : Nat
  inst : Nat
  rseed : Int
  extra : Extra
  problem_id_template : String
  problem_name_template : String
  coco_seed : Nat
  distribution_theta : DoublePtr
deriving DecidableEq, Repr

/-- Modelled from the spec: the declaration of the noise model (`coco_internal.h`) is not
part of the file; the one field the factory touches is `distribution_theta`. -/
structure coco_noise_model_t where
  distribution_theta : DoublePtr
deriving DecidableEq, Repr

/-- Modelled from the spec: the declaration of `coco_problem_t` (`coco_internal.h`) is not
part of the file; these are the fields of the spec's Problem that this file reads or writes. -/
structure coco_problem_t where
  problem_id : String
  problem_name : String
  number_of_variables : Nat
  best_value : List ℚ
  best_parameter : List ℚ
  noise_model : coco_noise_model_t
  suite_dep_index : Nat
  suite_dep_function : Nat
  suite_dep_instance : Nat
deriving DecidableEq, Repr

/-- The side effect of `problem->noise_model->distribution_theta++` on the problem. -/
def theta_post_increment (problem : coco_problem_t) : coco_problem_t :=
  { problem with
    noise_model := { problem.noise_model with
      distribution_theta := problem.noise_model.distribution_theta.next } }

/-- What one run of the factory did: the constructor call it made and the problem it returns. -/
structure FactoryRun where
  call : WrapCall
  problem : coco_problem_t
deriving DecidableEq, Repr

/-! ## The factory -/

/-- The constant `verbose` of line 67. -/
def verbose : Int := 3

/-- The constant `problem_id_template` of line 68. -/
def problem_id_template : String := "bbob_noisy_f%lu_i%02lu_d%02lu"

/-- The constant `problem_name_template` of line 69. -/
def problem_name_template : String := "BBOB-NOISY suite problem f%lu instance %lu in %luD"

/-- The factory `coco_get_bbob_noisy_problem` (lines 62 to 711). The noise-wrapping
constructors live in another file, so the constructor is the argument `wrap`, which turns a
call into the problem it allocates. The result is `none` on the `coco_error` branch, which
returns no problem. -/
def coco_get_bbob_noisy_problem (wrap : WrapCall → coco_problem_t)
    (function dimension inst : Nat) : Option FactoryRun :=
  let rseed_1 := rseed_k 1 inst
  let rseed_8 := rseed_k 8 inst
  let rseed_7 := rseed_k 7 inst
  let rseed_10 := rseed_k 10 inst
  let rseed_14 := rseed_k 14 inst
  let rseed_17 := rseed_k 17 inst
  let rseed_19 := rseed_k 19 inst
  let rseed_21 := rseed_k 21 inst
  let coco_seed := coco_seed_of inst
  let function_idx := (function + 100) % 2 ^ 64
  if function_idx = 101 then
    let distribution_theta_arr : List ℚ := [0.1]
    let distribution_theta := DoublePtr.first distribution_theta_arr
    let rseed := rseed_1
    let call : WrapCall := ⟨.gaussian, .f_sphere, function_idx, dimension, inst, rseed, .absent,
      problem_id_template, problem_name_template, coco_seed, distribution_theta⟩
    let problem := wrap call
    some ⟨call, problem⟩
  else if function_idx = 102 then
    let alpha : ℚ := 0.01 * (0.49 + (1 : ℚ) / (dimension : ℚ))
    let beta : ℚ := 0.01
    let distribution_theta_arr : List ℚ := [alpha, beta]
    let distribution_theta := DoublePtr.first distribution_theta_arr
    let rseed := rseed_1
    let call : WrapCall := ⟨.uniform, .f_sphere, function_idx, dimension, inst, rseed, .absent,
      problem_id_template, problem_name_template, coco_seed, distribution_theta⟩
    let problem := wrap call
    some ⟨call, problem⟩
  else if function_idx = 103 then
    let distribution_theta_arr : List ℚ := [0.01, 0.05]
    let distribution_theta := DoublePtr.first distribution_theta_arr
    let rseed := rseed_1
    let call : WrapCall := ⟨.cauchy, .f_sphere, function_idx, dimension, inst, rseed, .absent,
      problem_id_template, problem_name_template, coco_seed, distribution_theta⟩
    let problem := wrap call
    some ⟨call, problem⟩
  else if function_idx = 104 then
    let distribution_theta_arr : List ℚ := [0.01]
    let distribution_theta := DoublePtr.first distribution_theta_arr
    let rseed := rseed_8
    let call : WrapCall := ⟨.gaussian, .f_rosenbrock, function_idx, dimension, inst, rseed, .absent,
      problem_id_template, problem_name_template, coco_seed, distribution_theta⟩
    let problem := wrap call
    some ⟨call, problem⟩
  else if function_idx = 105 then
    let alpha : ℚ := 0.01 * (0.49 + (1 : ℚ) / (dimension : ℚ))
    let beta : ℚ := 0.01
    let distribution_theta_arr : List ℚ := [alpha, beta]
    let distribution_theta := DoublePtr.first distribution_theta_arr
    let rseed := rseed_8
    let call : WrapCall := ⟨.uniform, .f_rosenbrock, function_idx, dimension, inst, rseed, .absent,
      problem_id_template, problem_name_template, coco_seed, distribution_theta⟩
    let problem := wrap call
    some ⟨call, problem⟩
  else if function_idx = 106 then
    let distribution_theta_arr : List ℚ := [0.01, 0.05]
    let distribution_theta := DoublePtr.first distribution_theta_arr
    let rseed := rseed_8
    let call : WrapCall := ⟨.cauchy, .f_rosenbrock, function_idx, dimension, inst, rseed, .absent,
      problem_id_template, problem_name_template, coco_seed, distribution_theta⟩
    let problem := wrap call
    some ⟨call, problem⟩
  else if function_idx = 107 then
    let distribution_theta_arr : List ℚ := [1.0]
    let distribution_theta := DoublePtr.first distribution_theta_arr
    let rseed := rseed_1
    let call : WrapCall := ⟨.gaussian, .f_sphere, function_idx, dimension, inst, rseed, .absent,
      problem_id_template, problem_name_template, coco_seed, distribution_theta⟩
    let problem := wrap call
    some ⟨call, problem⟩
  else if function_idx = 108 then
    let alpha : ℚ := 0.49 + 1.0 / (dimension : ℚ)
    let beta : ℚ := 1.0
    let distribution_theta_arr : List ℚ := [alpha, beta]
    let distribution_theta := DoublePtr.first distribution_theta_arr
    let rseed := rseed_1
    let call : WrapCall := ⟨.uniform, .f_sphere, function_idx, dimension, inst, rseed, .absent,
      problem_id_template, problem_name_template, coco_seed, distribution_theta⟩
    let problem := wrap call
    some ⟨call, problem⟩
  else if function_idx = 109 then
    let distribution_theta_arr : List ℚ := [1.0, 0.2]
    let distribution_theta := DoublePtr.first distribution_theta_arr
    let rseed := rseed_1
    let call : WrapCall := ⟨.cauchy, .f_sphere, function_idx, dimension, inst, rseed, .absent,
      problem_id_template, problem_name_template, coco_seed, distribution_theta⟩
    let problem := wrap call
    some ⟨call, problem⟩
  else if function_idx = 110 then
    let distribution_theta_arr : List ℚ := [1.0]
    let distribution_theta := DoublePtr.first distribution_theta_arr
    let rseed := rseed_8
    let call : WrapCall := ⟨.gaussian, .f_rosenbrock, function_idx, dimension, inst, rseed, .absent,
      problem_id_template, problem_name_template, coco_seed, distribution_theta⟩
    let problem := wrap call
    some ⟨call, problem⟩
  else if function_idx = 111 then
    let alpha : ℚ := 0.49 + 1.0 / (dimension : ℚ)
    let beta : ℚ := 1.0
    let distribution_theta_arr : List ℚ := [alpha, beta]
    let distribution_theta := DoublePtr.first distribution_theta_arr
    let rseed := rseed_8
    let call : WrapCall := ⟨.uniform, .f_rosenbrock, function_idx, dimension, inst, rseed, .absent,
      problem_id_template, problem_name_template, coco_seed, distribution_theta⟩
    let problem := wrap call
    some ⟨call, problem⟩
  else if function_idx = 112 then
    let distribution_theta_arr : List ℚ := [1.0, 0.2]
    let distribution_theta := DoublePtr.first distribution_theta_arr
    let rseed := rseed_8
    let call : WrapCall := ⟨.cauchy, .f_rosenbrock, function_idx, dimension, inst, rseed, .absent,
      problem_id_template, problem_name_template, coco_seed, distribution_theta⟩
    let problem := wrap call
    some ⟨call, problem⟩
  else if function_idx = 113 then
    let distribution_theta_arr : List ℚ := [1.0, 0]
    let distribution_theta := DoublePtr.first distribution_theta_arr
    let rseed := rseed_7
    let call : WrapCall := ⟨.gaussian, .f_step_ellipsoid, function_idx, dimension, inst, rseed, .absent,
      problem_id_template, problem_name_template, coco_seed, distribution_theta⟩
    let problem := wrap call
    some ⟨call, problem⟩
  else if function_idx = 114 then
    let alpha : ℚ := 0.49 + 1.0 / (dimension : ℚ)
    let beta : ℚ := 1.0
    let distribution_theta_arr : List ℚ := [alpha, beta]
    let distribution_theta := DoublePtr.first distribution_theta_arr
    let rseed := rseed_7
    let call : WrapCall := ⟨.uniform, .f_step_ellipsoid, function_idx, dimension, inst, rseed, .absent,
      problem_id_template, problem_name_template, coco_seed, distribution_theta⟩
    let problem := wrap call
    some ⟨call, problem⟩
  else if function_idx = 115 then
    let distribution_theta_arr : List ℚ := [1.0, 0.2]
    let distribution_theta := DoublePtr.first distribution_theta_arr
    let rseed := rseed_7
    let call : WrapCall := ⟨.cauchy, .f_step_ellipsoid, function_idx, dimension, inst, rseed, .absent,
      problem_id_template, problem_name_template, coco_seed, distribution_theta⟩
    let problem := wrap call
    some ⟨call, problem⟩
  else if function_idx = 116 then
    let distribution_theta_arr : List ℚ := [1.0]
    let distribution_theta := DoublePtr.first distribution_theta_arr
    let rseed := rseed_10
    let condition : ℚ := 1.0e4
    let call : WrapCall := ⟨.gaussian_conditioned, .f_ellipsoid_rotated, function_idx, dimension, inst, rseed, .conditioning condition,
      problem_id_template, problem_name_template, coco_seed, distribution_theta⟩
    let problem := wrap call
    some ⟨call, problem⟩
  else if function_idx = 117 then
    let alpha : ℚ := 0.49 + 1.0 / (dimension : ℚ)
    let beta : ℚ := 1.0
    let distribution_theta_arr : List ℚ := [alpha, beta]
    let distribution_theta := DoublePtr.first distribution_theta_arr
    let rseed := rseed_10
    let condition : ℚ := 1.0e4
    let call : WrapCall := ⟨.uniform_conditioned, .f_ellipsoid_rotated, function_idx, dimension, inst, rseed, .conditioning condition,
      problem_id_template, problem_name_template, coco_seed, distribution_theta⟩
    let problem := wrap call
    let problem := if verbose = 3 then theta_post_increment problem else problem
    some ⟨call, problem⟩
  else if function_idx = 118 then
    let distribution_theta_arr : List ℚ := [1.0, 0.2]
    let distribution_theta := DoublePtr.first distribution_theta_arr
    let rseed := rseed_10
    let condition : ℚ := 1.0e4
    let call : WrapCall := ⟨.cauchy_conditioned, .f_ellipsoid_rotated, function_idx, dimension, inst, rseed, .conditioning condition,
      problem_id_template, problem_name_template, coco_seed, distribution_theta⟩
    let problem := wrap call
    let problem := if verbose = 3 then theta_post_increment problem else problem
    some ⟨call, problem⟩
  else if function_idx = 119 then
    let distribution_theta_arr : List ℚ := [1.0]
    let distribution_theta := DoublePtr.first distribution_theta_arr
    let rseed := rseed_14
    let call : WrapCall := ⟨.gaussian, .f_different_powers, function_idx, dimension, inst, rseed, .absent,
      problem_id_template, problem_name_template, coco_seed, distribution_theta⟩
    let problem := wrap call
    some ⟨call, problem⟩
  else if function_idx = 120 then
    let alpha : ℚ := 0.49 + 1.0 / (dimension : ℚ)
    let beta : ℚ := 1.0
    let distribution_theta_arr : List ℚ := [alpha, beta]
    let distribution_theta := DoublePtr.first distribution_theta_arr
    let rseed := rseed_14
    let call : WrapCall := ⟨.uniform, .f_different_powers, function_idx, dimension, inst, rseed, .absent,
      problem_id_template, problem_name_template, coco_seed, distribution_theta⟩
    let problem := wrap call
    some ⟨call, problem⟩
  else if function_idx = 121 then
    let distribution_theta_arr : List ℚ := [1.0, 0.2]
    let distribution_theta := DoublePtr.first distribution_theta_arr
    let rseed := rseed_14
    let call : WrapCall := ⟨.cauchy, .f_different_powers, function_idx, dimension, inst, rseed, .absent,
      problem_id_template, problem_name_template, coco_seed, distribution_theta⟩
    let problem := wrap call
    some ⟨call, problem⟩
  else if function_idx = 122 then
    let distribution_theta_arr : List ℚ := [1.0]
    let distribution_theta := DoublePtr.first distribution_theta_arr
    let rseed := rseed_17
    let conditioning : ℚ := 10
    let call : WrapCall := ⟨.gaussian_conditioned, .f_schaffers, function_idx, dimension, inst, rseed, .conditioning conditioning,
      problem_id_template, problem_name_template, coco_seed, distribution_theta⟩
    let problem := wrap call
    some ⟨call, problem⟩
  else if function_idx = 123 then
    let alpha : ℚ := 0.49 + 1.0 / (dimension : ℚ)
    let beta : ℚ := 1.0
    let distribution_theta_arr : List ℚ := [alpha, beta]
    let distribution_theta := DoublePtr.first distribution_theta_arr
    let rseed := rseed_17
    let conditioning : ℚ := 10
    let call : WrapCall := ⟨.uniform_conditioned, .f_schaffers, function_idx, dimension, inst, rseed, .conditioning conditioning,
      problem_id_template, problem_name_template, coco_seed, distribution_theta⟩
    let problem := wrap call
    some ⟨call, problem⟩
  else if function_idx = 124 then
    let distribution_theta_arr : List ℚ := [1.0, 0.2]
    let distribution_theta := DoublePtr.first distribution_theta_arr
    -- the source also assigns rseed = rseed_17 here; the call names rseed_17 itself
    let conditioning : ℚ := 10
    let call : WrapCall := ⟨.cauchy_conditioned, .f_schaffers, function_idx, dimension, inst, rseed_17, .conditioning conditioning,
      problem_id_template, problem_name_template, coco_seed, distribution_theta⟩
    let problem := wrap call
    some ⟨call, problem⟩
  else if function_idx = 125 then
    let distribution_theta_arr : List ℚ := [1.0]
    let distribution_theta := DoublePtr.first distribution_theta_arr
    let rseed := rseed_19
    let facftrue : ℚ := 1.0
    let call : WrapCall := ⟨.gaussian_conditioned, .f_griewank_rosenbrock, function_idx, dimension, inst, rseed, .conditioning facftrue,
      problem_id_template, problem_name_template, coco_seed, distribution_theta⟩
    let problem := wrap call
    some ⟨call, problem⟩
  else if function_idx = 126 then
    let alpha : ℚ := 0.49 + 1.0 / (dimension : ℚ)
    let beta : ℚ := 1.0
    let distribution_theta_arr : List ℚ := [alpha, beta]
    let distribution_theta := DoublePtr.first distribution_theta_arr
    let rseed := rseed_19
    let facftrue : ℚ := 1.0
    let call : WrapCall := ⟨.uniform_conditioned, .f_griewank_rosenbrock, function_idx, dimension, inst, rseed, .conditioning facftrue,
      problem_id_template, problem_name_template, coco_seed, distribution_theta⟩
    let problem := wrap call
    let problem := if verbose = 3 then theta_post_increment problem else problem
    some ⟨call, problem⟩
  else if function_idx = 127 then
    let distribution_theta_arr : List ℚ := [1.0, 0.2]
    let distribution_theta := DoublePtr.first distribution_theta_arr
    let rseed := rseed_19
    let facftrue : ℚ := 1.0
    let call : WrapCall := ⟨.cauchy_conditioned, .f_griewank_rosenbrock, function_idx, dimension, inst, rseed, .conditioning facftrue,
      problem_id_template, problem_name_template, coco_seed, distribution_theta⟩
    let problem := wrap call
    let problem := if verbose = 3 then theta_post_increment problem else problem
    some ⟨call, problem⟩
  else if function_idx = 128 then
    let distribution_theta_arr : List ℚ := [1.0]
    let distribution_theta := DoublePtr.first distribution_theta_arr
    let rseed := rseed_21
    let n_peaks : Nat := 101
    let call : WrapCall := ⟨.gaussian_gallagher, .f_gallagher, function_idx, dimension, inst, rseed, .n_peaks n_peaks,
      problem_id_template, problem_name_template, coco_seed, distribution_theta⟩
    let problem := wrap call
    some ⟨call, problem⟩
  else if function_idx = 129 then
    let alpha : ℚ := 0.49 + 1.0 / (dimension : ℚ)
    let beta : ℚ := 1.0
    let distribution_theta_arr : List ℚ := [alpha, beta]
    let distribution_theta := DoublePtr.first distribution_theta_arr
    let rseed := rseed_21
    let n_peaks : Nat := 101
    let call : WrapCall := ⟨.uniform_gallagher, .f_gallagher, function_idx, dimension, inst, rseed, .n_peaks n_peaks,
      problem_id_template, problem_name_template, coco_seed, distribution_theta⟩
    let problem := wrap call
    some ⟨call, problem⟩
  else if function_idx = 130 then
    let distribution_theta_arr : List ℚ := [1.0, 0.2]
    let distribution_theta := DoublePtr.first distribution_theta_arr
    let rseed := rseed_21
    let n_peaks : Nat := 101
    let call : WrapCall := ⟨.cauchy_gallagher, .f_gallagher, function_idx, dimension, inst, rseed, .n_peaks n_peaks,
      problem_id_template, problem_name_template, coco_seed, distribution_theta⟩
    let problem := wrap call
    some ⟨call, problem⟩
  else
    none

/-! ## The rows of the dispatch, read off the branches -/

/-- The numbers `k` of the eight seed variables `rseed_k` declared on lines 72 to 79. -/
def seed_offsets : List Nat := [1, 8, 7, 10, 14, 17, 19, 21]

/-- The number `k` of the seed variable `rseed_k` named by the branch of `function`
(the branch tests `function + 100`), for `function` from 1 to 30. -/
def seed_offset (function : Nat) : Nat :=
  if function ≤ 3 then 1
  else if function ≤ 6 then 8
  else if function ≤ 9 then 1
  else if function ≤ 12 then 8
  else if function ≤ 15 then 7
  else if function ≤ 18 then 10
  else if function ≤ 21 then 14
  else if function ≤ 24 then 17
  else if function ≤ 27 then 19
  else 21

/-- The wrappers without an extra argument: `..._noisy_gaussian`, `..._noisy_uniform`,
`..._noisy_cauchy`. -/
def NoisyWrapper.isPlain : NoisyWrapper → Bool
  | .gaussian | .uniform | .cauchy => true
  | _ => false

/-- The wrappers `..._noisy_<distribution>_conditioned`. -/
def NoisyWrapper.isConditioned : NoisyWrapper → Bool
  | .gaussian_conditioned | .uniform_conditioned | .cauchy_conditioned => true
  | _ => false

/-- The wrappers `..._noisy_<distribution>_gallagher`. -/
def NoisyWrapper.isGallagher : NoisyWrapper → Bool
  | .gaussian_gallagher | .uniform_gallagher | .cauchy_gallagher => true
  | _ => false

/-- The length of the array `distribution_theta_arr` a call's theta points into. -/
def WrapCall.theta_length (call : WrapCall) : Nat := call.distribution_theta.arr.length

/-! ## Formatting of identifiers -/

/-- The conversion `%lu`: the decimal digits of the argument. -/
def fmt_lu (n : Nat) : List Char := (Nat.repr n).toList

/-- The conversion `%02lu`: the decimal digits, padded with a zero to at least two. -/
def fmt_02lu (n : Nat) : List Char :=
  if n < 10 then '0' :: (Nat.repr n).toList else (Nat.repr n).toList

/-- The C formatting of a template whose conversions are `%lu` and `%02lu`, each
consuming the next argument; every other character is copied. -/
def format_lu : List Char → List Nat → List Char
  | '%' :: 'l' :: 'u' :: rest, a :: args => fmt_lu a ++ format_lu rest args
  | '%' :: '0' :: '2' :: 'l' :: 'u' :: rest, a :: args => fmt_02lu a ++ format_lu rest args
  | c :: rest, args => c :: format_lu rest args
  | [], _ => []

/-- Modelled from the spec: the noise-wrapping constructors
(`suite_bbob_noisy_utilities.c`) are not part of the file. The constructor wraps the
problem `base call` of the base generator: the best value and best parameter are inherited
unmodified, the identifier and the display name are the templates formatted with the
function number, the instance and the dimension of the call, and the noise model carries
the theta handed to the constructor. -/
def wrap_noisy (base : WrapCall → coco_problem_t) (call : WrapCall) : coco_problem_t :=
  { base call with
    problem_id :=
      String.mk (format_lu call.problem_id_template.toList
        [call.function, call.inst, call.dimension])
    problem_name :=
      String.mk (format_lu call.problem_name_template.toList
        [call.function, call.inst, call.dimension])
    noise_model := { distribution_theta := call.distribution_theta } }

/-- A base problem to evaluate the factory on concrete inputs: optimum value 0 at the origin. -/
def origin_base (call : WrapCall) : coco_problem_t :=
  { problem_id := ""
    problem_name := ""
    number_of_variables := call.dimension
    best_value := [0]
    best_parameter := List.replicate call.dimension 0
    noise_model := { distribution_theta := DoublePtr.first [] }
    suite_dep_index := 0
    suite_dep_function := 0
    suite_dep_instance := 0 }

/-! ## The suite: initialisation, instances by year, problems by index -/

/-- One call of `coco_suite_allocate`, with its arguments in the order of the source. -/
structure SuiteAllocateCall where
  suite_name : String
  number_of_functions : Nat
  number_of_dimensions : Nat
  dimensions : List Nat
  default_instances : String
deriving DecidableEq, Repr

/-- The function `suite_bbob_noisy_initialize` (lines 28 to 38): the suite it returns is the
one `coco_suite_allocate` builds, so the model returns the call it makes;
`sizeof(dimensions) / sizeof(dimensions[0])` is the length of the array. -/
def suite_bbob_noisy_initialize : SuiteAllocateCall :=
  let dimensions : List Nat := [2, 3, 5, 10, 20, 40]
  let num_dimensions := dimensions.length
  ⟨"bbob-noisy", 30, num_dimensions, dimensions, "year:2009"⟩

/-- The function `suite_bbob_noisy_get_instances_by_year` (lines 45 to 54); `none` is the
branch of `coco_error`, which returns no range. -/
def suite_bbob_noisy_get_instances_by_year (year : Int) : Option String :=
  if year ≤ 2009 then
    some "1-15"
  else
    none

/-- Modelled from the spec: the declaration of `coco_suite_t` (`coco_internal.h`) is not
part of the file; the suite descriptor has a name and the ordered sets of its functions,
dimensions and instances, whose lengths are the numbers of functions, dimensions and
instances. -/
structure coco_suite_t where
  suite_name : String
  functions : List Nat
  dimensions : List Nat
  instances : List Nat
deriving DecidableEq, Repr

/-- The words of memory found by a read past the end of each of the three arrays of a
suite. The code has no range check on its indices: it goes on with the word it reads. -/
structure AdjacentMemory where
  functions : Nat → Nat
  dimensions : Nat → Nat
  instances : Nat → Nat

/-- The read `a[idx]` of an array of `size_t`: the element at `idx` when `idx` is a position
of the array, else the `size_t` word that the memory holds at that index. -/
def array_read (a : List Nat) (beyond : Nat → Nat) (idx : Nat) : Nat :=
  match a.get? idx with
  | some v => v
  | none => beyond idx % 2 ^ 64

/-- How a call of `suite_bbob_noisy_get_problem` ends: it returns the problem (with the
constructor call that built it), or the factory ends in `coco_error`. -/
inductive Outcome where
  | returned (run : FactoryRun)
  | coco_error
deriving DecidableEq, Repr

/-- The function `suite_bbob_noisy_get_problem` (lines 722 to 739). The function
`coco_suite_encode_problem_index` lives in another file and is the argument `encode`; the
memory next to the arrays of the suite is the argument `around`. -/
def suite_bbob_noisy_get_problem (wrap : WrapCall → coco_problem_t)
    (encode : coco_suite_t → Nat → Nat → Nat → Nat) (around : AdjacentMemory)
    (suite : coco_suite_t) (function_idx dimension_idx instance_idx : Nat) : Outcome :=
  let function := array_read suite.functions around.functions function_idx
  let dimension := array_read suite.dimensions around.dimensions dimension_idx
  let inst := array_read suite.instances around.instances instance_idx
  match coco_get_bbob_noisy_problem wrap function dimension inst with
  | none => Outcome.coco_error
  | some run =>
    Outcome.returned
      { run with
        problem := { run.problem with
          suite_dep_function := function
          suite_dep_instance := inst
          suite_dep_index := encode suite function_idx dimension_idx instance_idx } }

/-- A memory to evaluate `suite_bbob_noisy_get_problem` on concrete inputs: the word 0 past
the functions and the instances, the word 7 past the dimensions. -/
def sample_memory : AdjacentMemory :=
  { functions := fun _ => 0
    dimensions := fun _ => 7
    instances := fun _ => 0 }

/-- Modelled from the spec: `coco_suite_encode_problem_index` (`coco_suite.c`) is not part
of the file. The linear index of a triple of indices over the cross product, in
dimension-major, then function, then instance order. -/
def coco_suite_encode_problem_index (suite : coco_suite_t)
    (function_idx dimension_idx instance_idx : Nat) : Nat :=
  dimension_idx * (suite.instances.length * suite.functions.length)
    + function_idx * suite.instances.length + instance_idx

/-- Modelled from the spec: `coco_suite_decode_problem_index` (`coco_suite.c`) is not part
of the file. The triple (function index, dimension index, instance index) of a linear
index. -/
def coco_suite_decode_problem_index (suite : coco_suite_t) (problem_index : Nat) :
    Nat × Nat × Nat :=
  ((problem_index / suite.instances.length) % suite.functions.length,
    problem_index / (suite.instances.length * suite.functions.length),
    problem_index % suite.instances.length)

/-- The value of a string of decimal digits read after the digits of value `acc`; `none`
when a character is not a digit. -/
def decimal_value : List Char → Nat → Option Nat
  | [], acc => some acc
  | c :: cs, acc =>
    if c.isDigit then decimal_value cs (10 * acc + (c.toNat - '0'.toNat)) else none

/-- Modelled from the spec: the parsing of the default instances (`coco_suite.c`) is not
part of the file. The string `year:<y>` names the release year `y`. -/
def year_of_default_instances (s : String) : Option Int :=
  match s.toList with
  | 'y' :: 'e' :: 'a' :: 'r' :: ':' :: c :: cs => (decimal_value (c :: cs) 0).map Int.ofNat
  | _ => none

/-- Modelled from the spec: the parsing of instance ranges (`coco_suite.c`) is not part of
the file. The string `<a>-<b>` names the instances from `a` to `b`. -/
def instances_of_range (s : String) : Option (List Nat) :=
  match s.toList.span Char.isDigit with
  | (a :: as, '-' :: b :: bs) =>
    match decimal_value (a :: as) 0, decimal_value (b :: bs) 0 with
    | some lo, some hi => some (List.range' lo (hi + 1 - lo))
    | _, _ => none
  | _ => none

/-- Modelled from the spec: `coco_suite_allocate` (`coco_suite.c`) is not part of the file.
The suite descriptor of the bbob-noisy suite: the name and the dimensions requested by
`suite_bbob_noisy_initialize`, the function ids 1 to 30 and the instances 1 to 15. -/
def bbob_noisy_suite : coco_suite_t :=
  { suite_name := suite_bbob_noisy_initialize.suite_name
    functions := List.range' 1 suite_bbob_noisy_initialize.number_of_functions
    dimensions := suite_bbob_noisy_initialize.dimensions
    instances := List.range' 1 15 }

/-! ## The rows by block and by distribution, as the description of the suite lists them -/

/-- The three noise distributions. -/
inductive Distribution where
  | gaussian
  | uniform
  | cauchy
deriving DecidableEq, Repr

/-- The distribution in the name of a noise-wrapping constructor. -/
def NoisyWrapper.distribution : NoisyWrapper → Distribution
  | .gaussian | .gaussian_conditioned | .gaussian_gallagher => Distribution.gaussian
  | .uniform | .uniform_conditioned | .uniform_gallagher => Distribution.uniform
  | .cauchy | .cauchy_conditioned | .cauchy_gallagher => Distribution.cauchy

/-- The list of the blocks: the base generator and the seed offset stated for block `k`,
the function ids `3 * k - 2` to `3 * k`. -/
def listed_block_row : Nat → Option (BaseAllocator × Nat)
  | 1 => some (BaseAllocator.f_sphere, 1)
  | 2 => some (BaseAllocator.f_rosenbrock, 8)
  | 3 => some (BaseAllocator.f_sphere, 1)
  | 4 => some (BaseAllocator.f_rosenbrock, 8)
  | 5 => some (BaseAllocator.f_step_ellipsoid, 7)
  | 6 => some (BaseAllocator.f_ellipsoid_rotated, 10)
  | 7 => some (BaseAllocator.f_different_powers, 14)
  | 8 => some (BaseAllocator.f_schaffers, 17)
  | 9 => some (BaseAllocator.f_griewank_rosenbrock, 19)
  | 10 => some (BaseAllocator.f_gallagher, 21)
  | _ => none

/-- The distribution stated for a function id: by its residue modulo 3. -/
def listed_distribution (function : Nat) : Distribution :=
  if function % 3 = 1 then Distribution.gaussian
  else if function % 3 = 2 then Distribution.uniform
  else Distribution.cauchy

/-- The first parameter stated for the Gaussian rows: 0.1 for function 1, 0.01 for
function 4, 1.0 for the other ones. -/
def listed_gaussian_theta0 (function : Nat) : ℚ :=
  if function = 1 then 0.1 else if function = 4 then 0.01 else 1.0

/-- The parameters stated for the Cauchy rows: `[0.01, 0.05]` for the functions 3 and 6,
`[1.0, 0.2]` for the other ones. -/
def listed_cauchy_theta (function : Nat) : List ℚ :=
  if function = 3 ∨ function = 6 then [0.01, 0.05] else [1.0, 0.2]

/-! ## Lemmas on the seed expression -/

/-- The seed expression is the sum reduced once modulo `2 ^ 64`, then cast to `long`. -/
theorem rseed_k_eq (k inst : Nat) :
    rseed_k k inst = toLong ((k + 10000 * inst) % 2 ^ 64) := by
  unfold rseed_k
  congr 1
  omega

/-- The cast to `long` leaves the values below `2 ^ 63` unchanged. -/
theorem toLong_of_lt (n : Nat) (h : n < 2 ^ 63) : toLong n = (n : Int) := by
  have h64 : n % 2 ^ 64 = n := Nat.mod_eq_of_lt (by omega)
  unfold toLong
  rw [h64, if_pos h]

/-- Without wrap-around the seed is the plain sum. -/
theorem rseed_k_of_lt (k inst : Nat) (h : k + 10000 * inst < 2 ^ 63) :
    rseed_k k inst = ((k + 10000 * inst : Nat) : Int) := by
  rw [rseed_k_eq, Nat.mod_eq_of_lt (by omega), toLong_of_lt _ h]

/-- Outside of 1..30 no branch of the dispatch is taken. -/
theorem coco_get_bbob_noisy_problem_eq_none (wrap : WrapCall → coco_problem_t)
    (f d i : Nat) (hf : f < 2 ^ 64) (h : ¬ (1 ≤ f ∧ f ≤ 30)) :
    coco_get_bbob_noisy_problem wrap f d i = none := by
  have key : ∀ k, 101 ≤ k → k ≤ 130 → ¬ ((f + 100) % 2 ^ 64 = k) := by
    intro k hk1 hk2
    omega
  iterate 30 refine (if_neg (key _ (by decide) (by decide))).trans ?_
  rfl

/-- The identifier template formatted with three arguments. -/
theorem format_problem_id (a b c : Nat) :
    String.mk (format_lu problem_id_template.toList [a, b, c]) =
      String.mk ("bbob_noisy_f".toList ++ (fmt_lu a ++
        ("_i".toList ++ (fmt_02lu b ++ ("_d".toList ++ fmt_02lu c))))) := by
  simp [problem_id_template, format_lu]

/-- The problem the factory returns is the constructed one, except in the branches of the
functions 17, 18, 26 and 27, where the noise model's theta pointer has been advanced. -/
theorem problem_after_constructor (wrap : WrapCall → coco_problem_t) (f d i : Nat)
    (h1 : 1 ≤ f) (h30 : f ≤ 30) :
    ∃ r, coco_get_bbob_noisy_problem wrap f d i = some r ∧
      r.problem = (if f = 17 ∨ f = 18 ∨ f = 26 ∨ f = 27
        then theta_post_increment (wrap r.call) else wrap r.call) := by
  interval_cases f <;> exact ⟨_, rfl, rfl⟩

/-- A read at a position of the array yields the element. -/
theorem array_read_of_get (a : List Nat) (beyond : Nat → Nat) (idx v : Nat)
    (h : a.get? idx = some v) : array_read a beyond idx = v := by
  unfold array_read
  rw [h]

/-- The call ends as the factory does on the three words read: in `coco_error` when the
factory does, else with the problem of the factory on which the three suite fields have
been set. -/
theorem suite_bbob_noisy_get_problem_read (wrap : WrapCall → coco_problem_t)
    (encode : coco_suite_t → Nat → Nat → Nat → Nat) (around : AdjacentMemory)
    (suite : coco_suite_t) (fi di ii : Nat) :
    suite_bbob_noisy_get_problem wrap encode around suite fi di ii =
      match coco_get_bbob_noisy_problem wrap
        (array_read suite.functions around.functions fi)
        (array_read suite.dimensions around.dimensions di)
        (array_read suite.instances around.instances ii) with
      | none => Outcome.coco_error
      | some run =>
        Outcome.returned
          { run with
            problem := { run.problem with
              suite_dep_function := array_read suite.functions around.functions fi
              suite_dep_instance := array_read suite.instances around.instances ii
              suite_dep_index := encode suite fi di ii } } :=
  rfl

/-- With the three indices in range, the call ends as the factory does at the resolved
triple: in `coco_error` when the factory does, else with the problem of the factory on
which the three suite fields have been set. -/
theorem suite_bbob_noisy_get_problem_eq (wrap : WrapCall → coco_problem_t)
    (encode : coco_suite_t → Nat → Nat → Nat → Nat) (around : AdjacentMemory)
    (suite : coco_suite_t)
    (fi di ii f d i : Nat) (hf : suite.functions.get? fi = some f)
    (hd : suite.dimensions.get? di = some d) (hi : suite.instances.get? ii = some i) :
    suite_bbob_noisy_get_problem wrap encode around suite fi di ii =
      match coco_get_bbob_noisy_problem wrap f d i with
      | none => Outcome.coco_error
      | some run =>
        Outcome.returned
          { run with
            problem := { run.problem with
              suite_dep_function := f
              suite_dep_instance := i
              suite_dep_index := encode suite fi di ii } } := by
  rw [suite_bbob_noisy_get_problem_read, array_read_of_get _ _ _ _ hf,
    array_read_of_get _ _ _ _ hd, array_read_of_get _ _ _ _ hi]

/-- The encoded index of a triple in range is below the number of problems. -/
theorem encode_lt_nat (F D I fi di ii : Nat) (hf : fi < F) (hd : di < D) (hi : ii < I) :
    di * (I * F) + fi * I + ii < F * D * I := by
  have h1 : fi * I + ii < I * F := by
    calc fi * I + ii < fi * I + I := by omega
      _ = (fi + 1) * I := by ring
      _ ≤ F * I := Nat.mul_le_mul_right _ hf
      _ = I * F := by ring
  calc di * (I * F) + fi * I + ii < di * (I * F) + I * F := by omega
    _ = (di + 1) * (I * F) := by ring
    _ ≤ D * (I * F) := Nat.mul_le_mul_right _ hd
    _ = F * D * I := by ring

/-- The quotients and remainders of an encoded index give back the triple. -/
theorem decode_encode_nat (F I fi di ii : Nat) (hf : fi < F) (hi : ii < I) :
    ((di * (I * F) + fi * I + ii) / I) % F = fi ∧
      (di * (I * F) + fi * I + ii) / (I * F) = di ∧
      (di * (I * F) + fi * I + ii) % I = ii := by
  have hI : 0 < I := by omega
  have hF : 0 < F := by omega
  have h1 : fi * I + ii < I * F := by
    calc fi * I + ii < fi * I + I := by omega
      _ = (fi + 1) * I := by ring
      _ ≤ F * I := Nat.mul_le_mul_right _ hf
      _ = I * F := by ring
  have e1 : di * (I * F) + fi * I + ii = ii + I * (fi + F * di) := by ring
  have e2 : di * (I * F) + fi * I + ii = (fi * I + ii) + (I * F) * di := by ring
  refine ⟨?_, ?_, ?_⟩
  · rw [e1, Nat.add_mul_div_left _ _ hI, Nat.div_eq_of_lt hi, Nat.zero_add,
      Nat.add_mul_mod_self_left, Nat.mod_eq_of_lt hf]
  · rw [e2, Nat.add_mul_div_left _ _ (Nat.mul_pos hI hF), Nat.div_eq_of_lt h1, Nat.zero_add]
  · rw [e1, Nat.add_mul_mod_self_left, Nat.mod_eq_of_lt hi]

/-- The quotients and remainders of an index below the number of problems are a triple in
range that encodes to the index. -/
theorem encode_decode_nat (F D I n : Nat) (hn : n < F * D * I) :
    (n / I) % F < F ∧ n / (I * F) < D ∧ n % I < I ∧
      n / (I * F) * (I * F) + (n / I) % F * I + n % I = n := by
  have hI : 0 < I := by
    rcases Nat.eq_zero_or_pos I with h | h
    · rw [h] at hn; simp at hn
    · exact h
  have hF : 0 < F := by
    rcases Nat.eq_zero_or_pos F with h | h
    · rw [h] at hn; simp at hn
    · exact h
  refine ⟨Nat.mod_lt _ hF, ?_, Nat.mod_lt _ hI, ?_⟩
  · rw [Nat.div_lt_iff_lt_mul (Nat.mul_pos hI hF)]
    calc n < F * D * I := hn
      _ = D * (I * F) := by ring
  · have a1 : n / (I * F) = n / I / F := (Nat.div_div_eq_div_mul n I F).symm
    have a2 := Nat.div_add_mod (n / I) F
    have a3 := Nat.div_add_mod n I
    calc n / (I * F) * (I * F) + (n / I) % F * I + n % I
        = I * (F * (n / I / F) + (n / I) % F) + n % I := by rw [a1]; ring
      _ = I * (n / I) + n % I := by rw [a2]
      _ = n := a3

/-- In the bbob-noisy suite the function at index `fi` is `fi + 1`. -/
theorem bbob_noisy_suite_function (fi : Nat) (h : fi < 30) :
    bbob_noisy_suite.functions.get? fi = some (fi + 1) := by
  interval_cases fi <;> rfl

/-- The cast to `long` is injective on the values of `size_t`. -/
theorem toLong_inj (a b : Nat) (ha : a < 2 ^ 64) (hb : b < 2 ^ 64)
    (h : toLong a = toLong b) : a = b := by
  unfold toLong at h
  rw [Nat.mod_eq_of_lt ha, Nat.mod_eq_of_lt hb] at h
  split_ifs at h <;> omega

/-- For a fixed offset the seed expression is injective on the instances below `2 ^ 60`:
`10000 = 16 * 625` and 625 is odd. -/
theorem rseed_k_inj_of_lt (o i j : Nat) (hi : i < 2 ^ 60) (hj : j < 2 ^ 60)
    (h : rseed_k o i = rseed_k o j) : i = j := by
  rw [rseed_k_eq, rseed_k_eq] at h
  have hm := toLong_inj _ _ (Nat.mod_lt _ (by norm_num)) (Nat.mod_lt _ (by norm_num)) h
  omega

/-- The second seed is the sum `1031 + instance` reduced modulo `2 ^ 32`. -/
theorem coco_seed_of_eq (inst : Nat) : coco_seed_of inst = (1031 + inst) % 2 ^ 32 := by
  unfold coco_seed_of
  omega

/-! ## The claims -/

/-- C1: for every function id from 1 to 30 and every instance, the seed handed to the
noise-wrapping constructor is `offset + 10000 * instance`, computed modulo `2 ^ 64` and cast
to `long`, where the offset of the row is one of 1, 7, 8, 10, 14, 17, 19, 21; in the
branch of function 24, which names `rseed_17` itself, the value is `17 + 10000 * instance`. -/
theorem rseed_handed_to_wrapper (wrap : WrapCall → coco_problem_t) (f d i : Nat)
    (h1 : 1 ≤ f) (h30 : f ≤ 30) :
    ∃ r, coco_get_bbob_noisy_problem wrap f d i = some r ∧
      r.call.rseed = toLong ((seed_offset f + 10000 * i) % 2 ^ 64) ∧
      seed_offset f ∈ seed_offsets ∧
      (f = 24 → r.call.rseed = toLong ((17 + 10000 * i) % 2 ^ 64)) := by
  interval_cases f <;>
    exact ⟨_, rfl, rseed_k_eq _ i, by decide,
      fun h => by first | exact absurd h (by decide) | exact rseed_k_eq 17 i⟩

/-- Witness of C1 in the branch of function 24, dimension 5, instance 2. -/
theorem rseed_handed_to_wrapper_witness :
    ∃ r, coco_get_bbob_noisy_problem (wrap_noisy origin_base) 24 5 2 = some r ∧
      r.call.rseed = toLong ((seed_offset 24 + 10000 * 2) % 2 ^ 64) ∧
      seed_offset 24 ∈ seed_offsets ∧
      (24 = 24 → r.call.rseed = toLong ((17 + 10000 * 2) % 2 ^ 64)) :=
  rseed_handed_to_wrapper (wrap_noisy origin_base) 24 5 2 (by decide) (by decide)

/-- C2: for a `size_t` function id, a problem-constructing branch is reached exactly when
the id is between 1 and 30, the branch being the one of `function + 100`; for every other
id the factory takes the `coco_error` branch and returns no problem. -/
theorem branch_reached_iff (wrap : WrapCall → coco_problem_t) (f d i : Nat)
    (hf : f < 2 ^ 64) :
    ((∃ r, coco_get_bbob_noisy_problem wrap f d i = some r ∧ r.call.function = f + 100) ↔
        (1 ≤ f ∧ f ≤ 30)) ∧
      (¬ (1 ≤ f ∧ f ≤ 30) → coco_get_bbob_noisy_problem wrap f d i = none) := by
  refine ⟨⟨?_, ?_⟩, coco_get_bbob_noisy_problem_eq_none wrap f d i hf⟩
  · rintro ⟨r, hr, -⟩
    by_contra hn
    rw [coco_get_bbob_noisy_problem_eq_none wrap f d i hf hn] at hr
    exact Option.noConfusion hr
  · rintro ⟨h1, h30⟩
    interval_cases f <;> exact ⟨_, rfl, rfl⟩

/-- Witness of C2 at the ids 0, 31 and `2 ^ 64 - 99`, whose sum with 100 wraps around to 1. -/
theorem branch_reached_iff_witness :
    coco_get_bbob_noisy_problem (wrap_noisy origin_base) 0 5 2 = none ∧
      coco_get_bbob_noisy_problem (wrap_noisy origin_base) 31 5 2 = none ∧
      coco_get_bbob_noisy_problem (wrap_noisy origin_base) (2 ^ 64 - 99) 5 2 = none :=
  ⟨(branch_reached_iff (wrap_noisy origin_base) 0 5 2 (by decide)).2 (by decide),
   (branch_reached_iff (wrap_noisy origin_base) 31 5 2 (by decide)).2 (by decide),
   (branch_reached_iff (wrap_noisy origin_base) (2 ^ 64 - 99) 5 2 (by decide)).2 (by decide)⟩

/-- C3: the call for function 1, dimension 5, instance 2 derives the seed 20001, selects
the plain Gaussian wrapper with theta `[0.1]` and wraps the sphere generator. -/
theorem build_1_5_2 (wrap : WrapCall → coco_problem_t) :
    ∃ r, coco_get_bbob_noisy_problem wrap 1 5 2 = some r ∧
      r.call.rseed = 20001 ∧
      r.call.wrapper = NoisyWrapper.gaussian ∧
      r.call.distribution_theta = DoublePtr.first [0.1] ∧
      r.call.allocator = BaseAllocator.f_sphere :=
  ⟨_, rfl, (by decide : rseed_k 1 2 = 20001), rfl, rfl, rfl⟩

/-- C4: the rows match the published list: function 4 is Rosenbrock with Gaussian noise and
seed offset 8; functions 16 to 18 are the rotated ellipsoid with a conditioned wrapper,
conditioning number 1.0e4 and seed offset 10; functions 22 to 24 are Schaffers with
conditioning number 10 and seed offset 17; functions 25 to 27 are Griewank-Rosenbrock with
seed offset 19; functions 28 to 30 are Gallagher with 101 peaks and seed offset 21. -/
theorem published_rows (wrap : WrapCall → coco_problem_t) (d i : Nat) :
    (∃ r, coco_get_bbob_noisy_problem wrap 4 d i = some r ∧
      r.call.allocator = BaseAllocator.f_rosenbrock ∧
      r.call.wrapper = NoisyWrapper.gaussian ∧
      r.call.rseed = rseed_k 8 i) ∧
    (∀ f, 16 ≤ f → f ≤ 18 →
      ∃ r, coco_get_bbob_noisy_problem wrap f d i = some r ∧
        r.call.allocator = BaseAllocator.f_ellipsoid_rotated ∧
        r.call.wrapper.isConditioned = true ∧
        r.call.extra = Extra.conditioning 1.0e4 ∧
        r.call.rseed = rseed_k 10 i) ∧
    (∀ f, 22 ≤ f → f ≤ 24 →
      ∃ r, coco_get_bbob_noisy_problem wrap f d i = some r ∧
        r.call.allocator = BaseAllocator.f_schaffers ∧
        r.call.extra = Extra.conditioning 10 ∧
        r.call.rseed = rseed_k 17 i) ∧
    (∀ f, 25 ≤ f → f ≤ 27 →
      ∃ r, coco_get_bbob_noisy_problem wrap f d i = some r ∧
        r.call.allocator = BaseAllocator.f_griewank_rosenbrock ∧
        r.call.rseed = rseed_k 19 i) ∧
    (∀ f, 28 ≤ f → f ≤ 30 →
      ∃ r, coco_get_bbob_noisy_problem wrap f d i = some r ∧
        r.call.allocator = BaseAllocator.f_gallagher ∧
        r.call.extra = Extra.n_peaks 101 ∧
        r.call.rseed = rseed_k 21 i) := by
  refine ⟨⟨_, rfl, rfl, rfl, rfl⟩, ?_, ?_, ?_, ?_⟩
  · intro f h1 h2
    interval_cases f <;> exact ⟨_, rfl, rfl, rfl, rfl, rfl⟩
  · intro f h1 h2
    interval_cases f <;> exact ⟨_, rfl, rfl, rfl, rfl⟩
  · intro f h1 h2
    interval_cases f <;> exact ⟨_, rfl, rfl, rfl⟩
  · intro f h1 h2
    interval_cases f <;> exact ⟨_, rfl, rfl, rfl, rfl⟩

/-- Witness of C4 at function 17 (rotated ellipsoid), dimension 5, instance 2. -/
theorem published_rows_witness :
    ∃ r, coco_get_bbob_noisy_problem (wrap_noisy origin_base) 17 5 2 = some r ∧
      r.call.allocator = BaseAllocator.f_ellipsoid_rotated ∧
      r.call.wrapper.isConditioned = true ∧
      r.call.extra = Extra.conditioning 1.0e4 ∧
      r.call.rseed = rseed_k 10 2 :=
  (published_rows (wrap_noisy origin_base) 5 2).2.1 17 (by decide) (by decide)

/-- C5, at the failing input (function 17, dimension 5, instance 1): whatever the
constructor builds, the factory returns its problem with the noise model's
`distribution_theta` advanced by one element, so the returned problem is not the
constructed one; with a constructor that stores the theta it is handed, the first value
readable through the pointer is `beta = 1.0`, not the row's `theta[0] = 0.69`. -/
theorem theta_pointer_advanced_f17 :
    (∀ wrap : WrapCall → coco_problem_t,
      ∃ r, coco_get_bbob_noisy_problem wrap 17 5 1 = some r ∧
        r.problem.noise_model.distribution_theta =
          (wrap r.call).noise_model.distribution_theta.next ∧
        r.problem ≠ wrap r.call) ∧
    (∃ r, coco_get_bbob_noisy_problem (wrap_noisy origin_base) 17 5 1 = some r ∧
      r.call.distribution_theta.deref = some 0.69 ∧
      r.problem.noise_model.distribution_theta.deref = some 1.0) := by
  constructor
  · intro wrap
    refine ⟨_, rfl, rfl, ?_⟩
    intro h
    have hoff := congrArg (fun p => p.noise_model.distribution_theta.off) h
    exact Nat.succ_ne_self _ hoff
  · refine ⟨_, rfl, ?_, rfl⟩
    show some ((0.49 : ℚ) + 1.0 / ((5 : ℕ) : ℚ)) = some 0.69
    norm_num

/-- C6: over the offsets 1, 7, 8, 10, 14, 17, 19, 21 and the instances 1 to 15, two
different pairs (offset, instance) never give the same value of the seed expression, and
the 120 pairs give 120 pairwise different seeds. -/
theorem seeds_distinct :
    (∀ o o' i i' : Nat, o ∈ seed_offsets → o' ∈ seed_offsets →
      1 ≤ i → i ≤ 15 → 1 ≤ i' → i' ≤ 15 → (o, i) ≠ (o', i') →
      rseed_k o i ≠ rseed_k o' i') ∧
    ((List.product seed_offsets (List.range' 1 15)).map (fun p => rseed_k p.1 p.2)).Nodup ∧
    ((List.product seed_offsets (List.range' 1 15)).map (fun p => rseed_k p.1 p.2)).length
      = 120 := by
  have inj : ∀ o o' i i' : Nat, o ∈ seed_offsets → o' ∈ seed_offsets →
      i ≤ 15 → i' ≤ 15 → rseed_k o i = rseed_k o' i' → o = o' ∧ i = i' := by
    intro o o' i i' ho ho' hi hi' heq
    have hb : ∀ k, k ∈ seed_offsets → k ≤ 21 := by decide
    have h21 := hb o ho
    have h21' := hb o' ho'
    rw [rseed_k_of_lt o i (by omega), rseed_k_of_lt o' i' (by omega)] at heq
    have hnat : o + 10000 * i = o' + 10000 * i' := by exact_mod_cast heq
    omega
  refine ⟨?_, ?_, by decide⟩
  · intro o o' i i' ho ho' _ hi _ hi' hne heq
    obtain ⟨h1, h2⟩ := inj o o' i i' ho ho' hi hi' heq
    exact hne (by rw [h1, h2])
  · refine List.Nodup.map_on ?_ (List.Nodup.product (by decide) (by decide))
    rintro ⟨o, i⟩ hp ⟨o', i'⟩ hp' heq
    rw [List.pair_mem_product] at hp hp'
    have hi : i ≤ 15 := by
      have := hp.2
      rw [List.mem_range'_1] at this
      omega
    have hi' : i' ≤ 15 := by
      have := hp'.2
      rw [List.mem_range'_1] at this
      omega
    obtain ⟨h1, h2⟩ := inj o o' i i' hp.1 hp'.1 hi hi' heq
    rw [h1, h2]

/-- Witness of C6 at the pairs (8, 1) and (1, 2). -/
theorem seeds_distinct_witness : rseed_k 8 1 ≠ rseed_k 1 2 :=
  seeds_distinct.1 8 1 1 2 (by decide) (by decide) (by decide) (by decide) (by decide)
    (by decide) (by decide)

/-- C7: the seed depends on the function id and the instance only: for a function id from
1 to 30, two runs of the factory at two dimensions hand the same seed to the wrapper,
whatever the constructors build, and two runs at the same dimension make the same call
(the same wrapper, seed and theta). -/
theorem seed_independent_of_dimension (wrap1 wrap2 : WrapCall → coco_problem_t)
    (f d1 d2 i : Nat) (h1 : 1 ≤ f) (h30 : f ≤ 30) :
    ∃ r1 r2, coco_get_bbob_noisy_problem wrap1 f d1 i = some r1 ∧
      coco_get_bbob_noisy_problem wrap2 f d2 i = some r2 ∧
      r1.call.rseed = r2.call.rseed ∧
      (d1 = d2 → r1.call.wrapper = r2.call.wrapper ∧ r1.call.rseed = r2.call.rseed ∧
        r1.call.distribution_theta = r2.call.distribution_theta ∧ r1.call = r2.call) := by
  interval_cases f <;>
    exact ⟨_, _, rfl, rfl, rfl, fun h => by subst h; exact ⟨rfl, rfl, rfl, rfl⟩⟩

/-- Witness of C7 at function 2 (whose theta depends on the dimension), dimensions 2 and
40, instance 3. -/
theorem seed_independent_of_dimension_witness :
    ∃ r1 r2, coco_get_bbob_noisy_problem (wrap_noisy origin_base) 2 2 3 = some r1 ∧
      coco_get_bbob_noisy_problem origin_base 2 40 3 = some r2 ∧
      r1.call.rseed = r2.call.rseed ∧
      (2 = 40 → r1.call.wrapper = r2.call.wrapper ∧ r1.call.rseed = r2.call.rseed ∧
        r1.call.distribution_theta = r2.call.distribution_theta ∧ r1.call = r2.call) :=
  seed_independent_of_dimension (wrap_noisy origin_base) origin_base 2 2 40 3
    (by decide) (by decide)

/-- C8, counterexample: at function 2 and instance 1 the theta handed to the wrapper is
`[0.0099, 0.01]` in dimension 2 and `[0.0069, 0.01]` in dimension 5, so theta varies with
the dimension. -/
theorem theta_varies_with_dimension :
    ∃ r1 r2, coco_get_bbob_noisy_problem (wrap_noisy origin_base) 2 2 1 = some r1 ∧
      coco_get_bbob_noisy_problem (wrap_noisy origin_base) 2 5 1 = some r2 ∧
      r1.call.distribution_theta = DoublePtr.first [0.0099, 0.01] ∧
      r2.call.distribution_theta = DoublePtr.first [0.0069, 0.01] ∧
      r1.call.distribution_theta ≠ r2.call.distribution_theta := by
  have e1 : DoublePtr.first [(0.01 : ℚ) * (0.49 + (1 : ℚ) / ((2 : ℕ) : ℚ)), 0.01]
      = DoublePtr.first [0.0099, 0.01] := by
    norm_num [DoublePtr.first]
  have e2 : DoublePtr.first [(0.01 : ℚ) * (0.49 + (1 : ℚ) / ((5 : ℕ) : ℚ)), 0.01]
      = DoublePtr.first [0.0069, 0.01] := by
    norm_num [DoublePtr.first]
  refine ⟨_, _, rfl, rfl, e1, e2, ?_⟩
  show DoublePtr.first [(0.01 : ℚ) * (0.49 + (1 : ℚ) / ((2 : ℕ) : ℚ)), 0.01]
      ≠ DoublePtr.first [(0.01 : ℚ) * (0.49 + (1 : ℚ) / ((5 : ℕ) : ℚ)), 0.01]
  rw [e1, e2]
  norm_num [DoublePtr.first]

/-- C8, amended: for every function id from 1 to 30 the base generator, the wrapper, the
extra scalar and the seed offset are the same for every dimension and every instance; theta
is the same for every instance, and for every dimension on the Gaussian and Cauchy rows
(function id not congruent to 2 modulo 3); on the Uniform rows theta[0] is computed from the
dimension, while the length of theta and theta[1] are the same for every dimension. -/
theorem row_keyed_by_function (wrap1 wrap2 : WrapCall → coco_problem_t)
    (f d1 d2 i1 i2 : Nat) (h1 : 1 ≤ f) (h30 : f ≤ 30) :
    ∃ r1 r2, coco_get_bbob_noisy_problem wrap1 f d1 i1 = some r1 ∧
      coco_get_bbob_noisy_problem wrap2 f d2 i2 = some r2 ∧
      r1.call.allocator = r2.call.allocator ∧
      r1.call.wrapper = r2.call.wrapper ∧
      r1.call.extra = r2.call.extra ∧
      (r1.call.rseed = rseed_k (seed_offset f) i1 ∧
        r2.call.rseed = rseed_k (seed_offset f) i2) ∧
      (d1 = d2 → r1.call.distribution_theta = r2.call.distribution_theta) ∧
      (f % 3 ≠ 2 → r1.call.distribution_theta = r2.call.distribution_theta) ∧
      r1.call.theta_length = r2.call.theta_length ∧
      r1.call.distribution_theta.next.deref = r2.call.distribution_theta.next.deref := by
  interval_cases f <;>
    refine ⟨_, _, rfl, rfl, rfl, rfl, rfl, ⟨rfl, rfl⟩, (fun h => by subst h; rfl), ?_,
      rfl, rfl⟩
  all_goals
    first
    | exact fun h => absurd (by decide) h
    | exact fun _ => rfl

/-- Witness of C8 (amended) at function 3 (Cauchy), dimensions 2 and 40, instances 1 and 15. -/
theorem row_keyed_by_function_witness :
    ∃ r1 r2, coco_get_bbob_noisy_problem (wrap_noisy origin_base) 3 2 1 = some r1 ∧
      coco_get_bbob_noisy_problem (wrap_noisy origin_base) 3 40 15 = some r2 ∧
      r1.call.allocator = r2.call.allocator ∧
      r1.call.wrapper = r2.call.wrapper ∧
      r1.call.extra = r2.call.extra ∧
      (r1.call.rseed = rseed_k (seed_offset 3) 1 ∧
        r2.call.rseed = rseed_k (seed_offset 3) 15) ∧
      (2 = 40 → r1.call.distribution_theta = r2.call.distribution_theta) ∧
      (3 % 3 ≠ 2 → r1.call.distribution_theta = r2.call.distribution_theta) ∧
      r1.call.theta_length = r2.call.theta_length ∧
      r1.call.distribution_theta.next.deref = r2.call.distribution_theta.next.deref :=
  row_keyed_by_function (wrap_noisy origin_base) (wrap_noisy origin_base) 3 2 40 1 15
    (by decide) (by decide)

/-- C9, counterexample: function 16 is wrapped by the conditioned Gaussian constructor, and
the theta array of its branch has one element, not two. -/
theorem conditioned_theta_length_one :
    ∃ r, coco_get_bbob_noisy_problem (wrap_noisy origin_base) 16 5 1 = some r ∧
      r.call.wrapper = NoisyWrapper.gaussian_conditioned ∧
      r.call.extra = Extra.conditioning 1.0e4 ∧
      r.call.theta_length = 1 ∧
      r.call.theta_length ≠ 2 :=
  ⟨_, rfl, rfl, rfl, rfl, by decide⟩

/-- C9, amended: the rows with a conditioned or Gallagher wrapper are those of the function
ids 16 to 18 and 22 to 30; each carries its extra scalar (a conditioning number, or a peak
count for the Gallagher wrappers) and a theta of length 1 on the Gaussian rows (16, 22, 25,
28) and of length 2 on the Uniform and Cauchy rows; every row with a plain wrapper has no
extra scalar and a theta of length 1 or 2. -/
theorem theta_length_by_wrapper (wrap : WrapCall → coco_problem_t) (f d i : Nat)
    (h1 : 1 ≤ f) (h30 : f ≤ 30) :
    ∃ r, coco_get_bbob_noisy_problem wrap f d i = some r ∧
      (r.call.wrapper.isPlain = false ↔ (16 ≤ f ∧ f ≤ 18) ∨ (22 ≤ f ∧ f ≤ 30)) ∧
      (r.call.wrapper.isPlain = false →
        (r.call.wrapper.isConditioned = true ∨ r.call.wrapper.isGallagher = true) ∧
        r.call.theta_length = (if f % 3 = 1 then 1 else 2)) ∧
      (r.call.wrapper.isConditioned = true → ∃ c, r.call.extra = Extra.conditioning c) ∧
      (r.call.wrapper.isGallagher = true → ∃ n, r.call.extra = Extra.n_peaks n) ∧
      (r.call.wrapper.isPlain = true →
        r.call.extra = Extra.absent ∧
        (r.call.theta_length = 1 ∨ r.call.theta_length = 2)) := by
  interval_cases f <;> refine ⟨_, rfl, ?_⟩ <;>
    simp [NoisyWrapper.isPlain, NoisyWrapper.isConditioned, NoisyWrapper.isGallagher,
      WrapCall.theta_length, DoublePtr.first]

/-- Witness of C9 (amended) at function 23 (conditioned Uniform), dimension 5, instance 1. -/
theorem theta_length_by_wrapper_witness :
    ∃ r, coco_get_bbob_noisy_problem (wrap_noisy origin_base) 23 5 1 = some r ∧
      (r.call.wrapper.isPlain = false ↔ (16 ≤ 23 ∧ 23 ≤ 18) ∨ (22 ≤ 23 ∧ 23 ≤ 30)) ∧
      (r.call.wrapper.isPlain = false →
        (r.call.wrapper.isConditioned = true ∨ r.call.wrapper.isGallagher = true) ∧
        r.call.theta_length = (if 23 % 3 = 1 then 1 else 2)) ∧
      (r.call.wrapper.isConditioned = true → ∃ c, r.call.extra = Extra.conditioning c) ∧
      (r.call.wrapper.isGallagher = true → ∃ n, r.call.extra = Extra.n_peaks n) ∧
      (r.call.wrapper.isPlain = true →
        r.call.extra = Extra.absent ∧
        (r.call.theta_length = 1 ∨ r.call.theta_length = 2)) :=
  theta_length_by_wrapper (wrap_noisy origin_base) 23 5 1 (by decide) (by decide)

/-- C10, counterexample: the identifier built for function 1, dimension 5, instance 2 is
`bbob_noisy_f101_i02_d05`, which is not `bbob-noisy_f1_i02_d05`. -/
theorem problem_id_1_5_2 :
    ∃ r, coco_get_bbob_noisy_problem (wrap_noisy origin_base) 1 5 2 = some r ∧
      r.problem.problem_id = "bbob_noisy_f101_i02_d05" ∧
      r.problem.problem_id ≠ "bbob-noisy_f1_i02_d05" :=
  ⟨_, rfl, by decide, by decide⟩

/-- C10, amended: for every function id `f` from 1 to 30, the factory hands the wrapper the
template `bbob_noisy_f%lu_i%02lu_d%02lu` with the function number `f + 100`, the instance
and the dimension, so the identifier of the built problem is `bbob_noisy_f` followed by
`f + 100`, `_i`, the instance on at least two digits, `_d`, and the dimension on at least
two digits. -/
theorem problem_id_format (base : WrapCall → coco_problem_t) (f d i : Nat)
    (h1 : 1 ≤ f) (h30 : f ≤ 30) :
    ∃ r, coco_get_bbob_noisy_problem (wrap_noisy base) f d i = some r ∧
      r.call.problem_id_template = "bbob_noisy_f%lu_i%02lu_d%02lu" ∧
      r.call.function = f + 100 ∧ r.call.inst = i ∧ r.call.dimension = d ∧
      r.problem.problem_id =
        String.mk ("bbob_noisy_f".toList ++ (fmt_lu (f + 100) ++
          ("_i".toList ++ (fmt_02lu i ++ ("_d".toList ++ fmt_02lu d))))) := by
  interval_cases f <;> exact ⟨_, rfl, rfl, rfl, rfl, rfl, format_problem_id _ i d⟩

/-- Witness of C10 (amended) at function 1, dimension 5, instance 2. -/
theorem problem_id_format_witness :
    ∃ r, coco_get_bbob_noisy_problem (wrap_noisy origin_base) 1 5 2 = some r ∧
      r.call.problem_id_template = "bbob_noisy_f%lu_i%02lu_d%02lu" ∧
      r.call.function = 1 + 100 ∧ r.call.inst = 2 ∧ r.call.dimension = 5 ∧
      r.problem.problem_id =
        String.mk ("bbob_noisy_f".toList ++ (fmt_lu (1 + 100) ++
          ("_i".toList ++ (fmt_02lu 2 ++ ("_d".toList ++ fmt_02lu 5))))) :=
  problem_id_format origin_base 1 5 2 (by decide) (by decide)

/-- C11: `suite_bbob_noisy_get_instances_by_year` returns the range `1-15` for every year
up to 2009, and for every later year ends in the unsupported-year error and returns no
range. -/
theorem instances_by_year (year : Int) :
    (year ≤ 2009 → suite_bbob_noisy_get_instances_by_year year = some "1-15") ∧
    (2009 < year → suite_bbob_noisy_get_instances_by_year year = none) := by
  unfold suite_bbob_noisy_get_instances_by_year
  constructor
  · intro h
    rw [if_pos h]
  · intro h
    rw [if_neg (not_le.mpr h)]

/-- Witness of C11 at the years 2009 and 2020. -/
theorem instances_by_year_witness :
    suite_bbob_noisy_get_instances_by_year 2009 = some "1-15" ∧
      suite_bbob_noisy_get_instances_by_year 2020 = none :=
  ⟨(instances_by_year 2009).1 (by decide), (instances_by_year 2020).2 (by decide)⟩

/-- C12: for every suite and every triple of indices in range, resolving to the function
`f`, the dimension `d` and the instance `i`, `suite_bbob_noisy_get_problem` runs the factory
at exactly `(f, d, i)` (for `f` from 1 to 30 the call carries `f + 100`, `d` and `i`), and
the problem it returns has `suite_dep_function = f`, `suite_dep_instance = i` and
`suite_dep_index` equal to the encoded index of the three indices; it ends in `coco_error`
when the factory does. -/
theorem get_problem_builds_indexed_triple (wrap : WrapCall → coco_problem_t)
    (encode : coco_suite_t → Nat → Nat → Nat → Nat) (around : AdjacentMemory)
    (suite : coco_suite_t)
    (fi di ii f d i : Nat) (hf : suite.functions.get? fi = some f)
    (hd : suite.dimensions.get? di = some d) (hi : suite.instances.get? ii = some i) :
    (∀ built, coco_get_bbob_noisy_problem wrap f d i = some built →
      ∃ run, suite_bbob_noisy_get_problem wrap encode around suite fi di ii =
          Outcome.returned run ∧
        run.call = built.call ∧
        run.problem.suite_dep_function = f ∧
        run.problem.suite_dep_instance = i ∧
        run.problem.suite_dep_index = encode suite fi di ii) ∧
    (coco_get_bbob_noisy_problem wrap f d i = none →
      suite_bbob_noisy_get_problem wrap encode around suite fi di ii = Outcome.coco_error) ∧
    (1 ≤ f → f ≤ 30 →
      ∃ built, coco_get_bbob_noisy_problem wrap f d i = some built ∧
        built.call.function = f + 100 ∧ built.call.dimension = d ∧ built.call.inst = i) := by
  have key := suite_bbob_noisy_get_problem_eq wrap encode around suite fi di ii f d i hf hd hi
  refine ⟨?_, ?_, ?_⟩
  · intro built hb
    rw [hb] at key
    exact ⟨_, key, rfl, rfl, rfl, rfl⟩
  · intro hn
    rw [hn] at key
    exact key
  · intro h1 h30
    interval_cases f <;> exact ⟨_, rfl, rfl, rfl, rfl⟩

/-- Witness of C12 in the bbob-noisy suite at the indices (16, 2, 4), which resolve to
function 17, dimension 5, instance 5. -/
theorem get_problem_builds_indexed_triple_witness :
    ∃ built, coco_get_bbob_noisy_problem (wrap_noisy origin_base) 17 5 5 = some built ∧
      built.call.function = 17 + 100 ∧ built.call.dimension = 5 ∧ built.call.inst = 5 :=
  (get_problem_builds_indexed_triple (wrap_noisy origin_base) coco_suite_encode_problem_index
    sample_memory bbob_noisy_suite 16 2 4 17 5 5 (by decide) (by decide) (by decide)).2.2
    (by decide) (by decide)

/-- C13: for indices in range that resolve to a function id from 1 to 30, the best value
and the best parameter of the problem returned by the factory and by
`suite_bbob_noisy_get_problem` are those of the problem the noise-wrapping constructor
returned, and `suite_bbob_noisy_get_problem` changes only `suite_dep_function`,
`suite_dep_instance` and `suite_dep_index` on the problem the factory built. -/
theorem optimum_preserved (wrap : WrapCall → coco_problem_t)
    (encode : coco_suite_t → Nat → Nat → Nat → Nat) (around : AdjacentMemory)
    (suite : coco_suite_t)
    (fi di ii f d i : Nat) (hf : suite.functions.get? fi = some f)
    (hd : suite.dimensions.get? di = some d) (hi : suite.instances.get? ii = some i)
    (h1 : 1 ≤ f) (h30 : f ≤ 30) :
    ∃ built run, coco_get_bbob_noisy_problem wrap f d i = some built ∧
      suite_bbob_noisy_get_problem wrap encode around suite fi di ii = Outcome.returned run ∧
      built.problem.best_value = (wrap built.call).best_value ∧
      built.problem.best_parameter = (wrap built.call).best_parameter ∧
      run.problem.best_value = (wrap built.call).best_value ∧
      run.problem.best_parameter = (wrap built.call).best_parameter ∧
      run.problem =
        { built.problem with
          suite_dep_function := f
          suite_dep_instance := i
          suite_dep_index := encode suite fi di ii } ∧
      run.problem.problem_id = built.problem.problem_id ∧
      run.problem.problem_name = built.problem.problem_name ∧
      run.problem.number_of_variables = built.problem.number_of_variables ∧
      run.problem.noise_model = built.problem.noise_model := by
  obtain ⟨built, hb, hp⟩ := problem_after_constructor wrap f d i h1 h30
  have key := suite_bbob_noisy_get_problem_eq wrap encode around suite fi di ii f d i hf hd hi
  rw [hb] at key
  have hv : built.problem.best_value = (wrap built.call).best_value := by
    rw [hp]
    split_ifs <;> rfl
  have hx : built.problem.best_parameter = (wrap built.call).best_parameter := by
    rw [hp]
    split_ifs <;> rfl
  exact ⟨built, _, hb, key, hv, hx, hv, hx, rfl, rfl, rfl, rfl, rfl⟩

/-- Witness of C13 in the bbob-noisy suite at the indices (16, 2, 4), which resolve to
function 17, whose branch advances the theta pointer, dimension 5 and instance 5. -/
theorem optimum_preserved_witness :
    ∃ built run, coco_get_bbob_noisy_problem (wrap_noisy origin_base) 17 5 5 = some built ∧
      suite_bbob_noisy_get_problem (wrap_noisy origin_base) coco_suite_encode_problem_index
        sample_memory bbob_noisy_suite 16 2 4 = Outcome.returned run ∧
      built.problem.best_value = (wrap_noisy origin_base built.call).best_value ∧
      built.problem.best_parameter = (wrap_noisy origin_base built.call).best_parameter ∧
      run.problem.best_value = (wrap_noisy origin_base built.call).best_value ∧
      run.problem.best_parameter = (wrap_noisy origin_base built.call).best_parameter ∧
      run.problem =
        { built.problem with
          suite_dep_function := 17
          suite_dep_instance := 5
          suite_dep_index := coco_suite_encode_problem_index bbob_noisy_suite 16 2 4 } ∧
      run.problem.problem_id = built.problem.problem_id ∧
      run.problem.problem_name = built.problem.problem_name ∧
      run.problem.number_of_variables = built.problem.number_of_variables ∧
      run.problem.noise_model = built.problem.noise_model :=
  optimum_preserved (wrap_noisy origin_base) coco_suite_encode_problem_index
    sample_memory bbob_noisy_suite 16 2 4 17 5 5 (by decide) (by decide) (by decide)
    (by decide) (by decide)

/-- C15: for every suite with `F` functions, `D` dimensions and `I` instances, the linear
index is a bijection from the triples of indices in range onto the indices below
`F * D * I`: the index of a triple in range is below `F * D * I` and decodes to the triple,
every index below `F * D * I` is the index of the triple in range it decodes to, and two
triples in range with the same index are equal. In the bbob-noisy suite the index is the
one stored in `suite_dep_index`, and the 2700 triples receive 2700 distinct indices. -/
theorem encode_bijection (suite : coco_suite_t) :
    (∀ fi di ii, fi < suite.functions.length → di < suite.dimensions.length →
      ii < suite.instances.length →
      coco_suite_encode_problem_index suite fi di ii <
        suite.functions.length * suite.dimensions.length * suite.instances.length ∧
      coco_suite_decode_problem_index suite (coco_suite_encode_problem_index suite fi di ii)
        = (fi, di, ii)) ∧
    (∀ n, n < suite.functions.length * suite.dimensions.length * suite.instances.length →
      ∃ fi di ii, fi < suite.functions.length ∧ di < suite.dimensions.length ∧
        ii < suite.instances.length ∧
        coco_suite_decode_problem_index suite n = (fi, di, ii) ∧
        coco_suite_encode_problem_index suite fi di ii = n) ∧
    (∀ fi di ii fj dj ij, fi < suite.functions.length → ii < suite.instances.length →
      fj < suite.functions.length → ij < suite.instances.length →
      coco_suite_encode_problem_index suite fi di ii =
        coco_suite_encode_problem_index suite fj dj ij →
      fi = fj ∧ di = dj ∧ ii = ij) ∧
    (∀ (wrap : WrapCall → coco_problem_t) (around : AdjacentMemory) (fi di ii : Nat),
      fi < bbob_noisy_suite.functions.length → di < bbob_noisy_suite.dimensions.length →
      ii < bbob_noisy_suite.instances.length →
      ∃ run, suite_bbob_noisy_get_problem wrap coco_suite_encode_problem_index around
          bbob_noisy_suite fi di ii = Outcome.returned run ∧
        run.problem.suite_dep_index =
          coco_suite_encode_problem_index bbob_noisy_suite fi di ii) ∧
    bbob_noisy_suite.functions.length * bbob_noisy_suite.dimensions.length *
      bbob_noisy_suite.instances.length = 2700 ∧
    ((Finset.range 30 ×ˢ Finset.range 6 ×ˢ Finset.range 15).image
      (fun t => coco_suite_encode_problem_index bbob_noisy_suite t.1 t.2.1 t.2.2)).card
      = 2700 := by
  have inj : ∀ (s : coco_suite_t) (fi di ii fj dj ij : Nat), fi < s.functions.length →
      ii < s.instances.length → fj < s.functions.length → ij < s.instances.length →
      coco_suite_encode_problem_index s fi di ii = coco_suite_encode_problem_index s fj dj ij →
      fi = fj ∧ di = dj ∧ ii = ij := by
    intro s fi di ii fj dj ij hfi hii hfj hij heq
    unfold coco_suite_encode_problem_index at heq
    obtain ⟨a1, a2, a3⟩ := decode_encode_nat _ _ fi di ii hfi hii
    obtain ⟨b1, b2, b3⟩ := decode_encode_nat _ _ fj dj ij hfj hij
    rw [heq] at a1 a2 a3
    exact ⟨a1.symm.trans b1, a2.symm.trans b2, a3.symm.trans b3⟩
  refine ⟨?_, ?_, inj suite, ?_, by decide, ?_⟩
  · intro fi di ii hf hd hi
    refine ⟨encode_lt_nat _ _ _ fi di ii hf hd hi, ?_⟩
    obtain ⟨a1, a2, a3⟩ := decode_encode_nat _ _ fi di ii hf hi
    unfold coco_suite_decode_problem_index coco_suite_encode_problem_index
    rw [a1, a2, a3]
  · intro n hn
    obtain ⟨a1, a2, a3, a4⟩ := encode_decode_nat _ _ _ n hn
    exact ⟨_, _, _, a1, a2, a3, rfl, a4⟩
  · intro wrap around fi di ii hf hd hi
    have hf30 : fi < 30 := hf
    have ef := bbob_noisy_suite_function fi hf30
    have ed := List.get?_eq_get hd
    have ei := List.get?_eq_get hi
    obtain ⟨built, hb, -⟩ := problem_after_constructor wrap (fi + 1)
      (bbob_noisy_suite.dimensions.get ⟨di, hd⟩) (bbob_noisy_suite.instances.get ⟨ii, hi⟩)
      (by omega) (by omega)
    have key := suite_bbob_noisy_get_problem_eq wrap coco_suite_encode_problem_index
      around bbob_noisy_suite fi di ii _ _ _ ef ed ei
    rw [hb] at key
    exact ⟨_, key, rfl⟩
  · rw [Finset.card_image_of_injOn]
    · simp
    · rintro ⟨fi, di, ii⟩ hi ⟨fj, dj, ij⟩ hj heq
      simp only [Finset.coe_product, Finset.coe_range, Set.mem_prod, Set.mem_Iio] at hi hj
      obtain ⟨h1, h2, h3⟩ := inj bbob_noisy_suite fi di ii fj dj ij hi.1 hi.2.2 hj.1 hj.2.2 heq
      rw [h1, h2, h3]

/-- Witness of C15 in the bbob-noisy suite at the indices (16, 2, 4), of linear index 1144. -/
theorem encode_bijection_witness :
    coco_suite_encode_problem_index bbob_noisy_suite 16 2 4 <
        bbob_noisy_suite.functions.length * bbob_noisy_suite.dimensions.length *
          bbob_noisy_suite.instances.length ∧
      coco_suite_decode_problem_index bbob_noisy_suite
        (coco_suite_encode_problem_index bbob_noisy_suite 16 2 4) = (16, 2, 4) :=
  (encode_bijection bbob_noisy_suite).1 16 2 4 (by decide) (by decide) (by decide)

/-- C16: `suite_bbob_noisy_initialize` requests a suite named `bbob-noisy` with 30 functions
and the 6 dimensions 2, 3, 5, 10, 20, 40 (a non-empty list without duplicates), with the
default instances `year:2009`; the year 2009 is resolved by
`suite_bbob_noisy_get_instances_by_year` to the range `1-15`, which has 15 instances, so the
suite addresses 6 * 30 * 15 = 2700 problems. -/
theorem suite_request :
    suite_bbob_noisy_initialize.suite_name = "bbob-noisy" ∧
    suite_bbob_noisy_initialize.number_of_functions = 30 ∧
    suite_bbob_noisy_initialize.dimensions = [2, 3, 5, 10, 20, 40] ∧
    suite_bbob_noisy_initialize.number_of_dimensions = 6 ∧
    suite_bbob_noisy_initialize.dimensions ≠ [] ∧
    suite_bbob_noisy_initialize.dimensions.Nodup ∧
    suite_bbob_noisy_initialize.default_instances = "year:2009" ∧
    year_of_default_instances suite_bbob_noisy_initialize.default_instances = some 2009 ∧
    suite_bbob_noisy_get_instances_by_year 2009 = some "1-15" ∧
    (∃ insts, instances_of_range "1-15" = some insts ∧ insts.length = 15 ∧
      insts = bbob_noisy_suite.instances) ∧
    suite_bbob_noisy_initialize.number_of_dimensions *
      suite_bbob_noisy_initialize.number_of_functions * 15 = 2700 ∧
    bbob_noisy_suite.dimensions.length * bbob_noisy_suite.functions.length *
      bbob_noisy_suite.instances.length = 2700 := by
  refine ⟨by decide, by decide, by decide, by decide, by decide, by decide, by decide,
    by decide, by decide, ⟨List.range' 1 15, by decide, by decide, by decide⟩, by decide,
    by decide⟩

/-- C17: for each offset among 1, 7, 8, 10, 14, 17, 19, 21, two different instances below
`2 ^ 60` give different seeds, the seed being `(offset + 10000 * instance) mod 2 ^ 64` cast
to `long`; in particular two different instances whose sums are not truncated do. -/
theorem seeds_distinct_per_offset (o i j : Nat) (_ : o ∈ seed_offsets) (hne : i ≠ j) :
    (i < 2 ^ 60 → j < 2 ^ 60 → rseed_k o i ≠ rseed_k o j) ∧
    (o + 10000 * i < 2 ^ 64 → o + 10000 * j < 2 ^ 64 → rseed_k o i ≠ rseed_k o j) := by
  constructor
  · intro hi hj h
    exact hne (rseed_k_inj_of_lt o i j hi hj h)
  · intro hi hj h
    exact hne (rseed_k_inj_of_lt o i j (by omega) (by omega) h)

/-- Witness of C17 at the offset 17 and the instances 1 and `2 ^ 59 + 1`, whose products
with 10000 wrap around. -/
theorem seeds_distinct_per_offset_witness :
    (1 < 2 ^ 60 → 2 ^ 59 + 1 < 2 ^ 60 → rseed_k 17 1 ≠ rseed_k 17 (2 ^ 59 + 1)) ∧
      (17 + 10000 * 1 < 2 ^ 64 → 17 + 10000 * (2 ^ 59 + 1) < 2 ^ 64 →
        rseed_k 17 1 ≠ rseed_k 17 (2 ^ 59 + 1)) :=
  seeds_distinct_per_offset 17 1 (2 ^ 59 + 1) (by decide) (by decide)

/-- C18: for a function id `f` from 1 to 30 the base generator and the seed offset are those
listed for the block `ceil (f / 3)`: sphere with 1 for the blocks 1 and 3, Rosenbrock with 8
for 2 and 4, step-ellipsoid with 7, rotated ellipsoid with 10, different-powers with 14,
Schaffers with 17, Griewank-Rosenbrock with 19, Gallagher with 21; each offset among
1, 7, 8, 10, 14, 17, 19, 21 is the offset of some row, and no row has another offset. -/
theorem rows_by_block :
    (∀ (wrap : WrapCall → coco_problem_t) (f d i : Nat), 1 ≤ f → f ≤ 30 →
      ∃ r g o, coco_get_bbob_noisy_problem wrap f d i = some r ∧
        listed_block_row ((f + 2) / 3) = some (g, o) ∧
        r.call.allocator = g ∧ r.call.rseed = rseed_k o i ∧ o ∈ seed_offsets) ∧
    (∀ o, o ∈ seed_offsets → ∃ f, 1 ≤ f ∧ f ≤ 30 ∧
      ∀ (wrap : WrapCall → coco_problem_t) (d i : Nat),
        ∃ r, coco_get_bbob_noisy_problem wrap f d i = some r ∧
          r.call.rseed = rseed_k o i) := by
  constructor
  · intro wrap f d i h1 h30
    interval_cases f <;> exact ⟨_, _, _, rfl, rfl, rfl, rfl, by decide⟩
  · intro o ho
    simp only [seed_offsets, List.mem_cons, List.mem_singleton, List.not_mem_nil,
      or_false] at ho
    rcases ho with rfl | rfl | rfl | rfl | rfl | rfl | rfl | rfl
    · exact ⟨1, by decide, by decide, fun _ _ _ => ⟨_, rfl, rfl⟩⟩
    · exact ⟨4, by decide, by decide, fun _ _ _ => ⟨_, rfl, rfl⟩⟩
    · exact ⟨13, by decide, by decide, fun _ _ _ => ⟨_, rfl, rfl⟩⟩
    · exact ⟨16, by decide, by decide, fun _ _ _ => ⟨_, rfl, rfl⟩⟩
    · exact ⟨19, by decide, by decide, fun _ _ _ => ⟨_, rfl, rfl⟩⟩
    · exact ⟨22, by decide, by decide, fun _ _ _ => ⟨_, rfl, rfl⟩⟩
    · exact ⟨25, by decide, by decide, fun _ _ _ => ⟨_, rfl, rfl⟩⟩
    · exact ⟨28, by decide, by decide, fun _ _ _ => ⟨_, rfl, rfl⟩⟩

/-- Witness of C18 at function 14 (block 5, step-ellipsoid, offset 7), dimension 5,
instance 2. -/
theorem rows_by_block_witness :
    ∃ r g o, coco_get_bbob_noisy_problem (wrap_noisy origin_base) 14 5 2 = some r ∧
      listed_block_row ((14 + 2) / 3) = some (g, o) ∧
      r.call.allocator = g ∧ r.call.rseed = rseed_k o 2 ∧ o ∈ seed_offsets :=
  rows_by_block.1 (wrap_noisy origin_base) 14 5 2 (by decide) (by decide)

/-- C19: for a function id `f` from 1 to 30 the distribution of the wrapper is Gaussian,
Uniform or Cauchy as `f mod 3` is 1, 2 or 0; the wrapper is plain for 1 to 15 and 19 to 21,
conditioned for 16 to 18 and 22 to 27, with the extra scalar 1.0e4, 10 and 1.0 on the
blocks 16 to 18, 22 to 24 and 25 to 27, and a Gallagher wrapper with 101 peaks for 28 to
30. -/
theorem wrapper_by_residue_and_range (wrap : WrapCall → coco_problem_t) (f d i : Nat)
    (h1 : 1 ≤ f) (h30 : f ≤ 30) :
    ∃ r, coco_get_bbob_noisy_problem wrap f d i = some r ∧
      r.call.wrapper.distribution = listed_distribution f ∧
      (r.call.wrapper.isPlain = true ↔ (f ≤ 15 ∨ (19 ≤ f ∧ f ≤ 21))) ∧
      (r.call.wrapper.isConditioned = true ↔ ((16 ≤ f ∧ f ≤ 18) ∨ (22 ≤ f ∧ f ≤ 27))) ∧
      (r.call.wrapper.isGallagher = true ↔ 28 ≤ f) ∧
      (r.call.wrapper.isPlain = true → r.call.extra = Extra.absent) ∧
      (16 ≤ f → f ≤ 18 → r.call.extra = Extra.conditioning 1.0e4) ∧
      (22 ≤ f → f ≤ 24 → r.call.extra = Extra.conditioning 10) ∧
      (25 ≤ f → f ≤ 27 → r.call.extra = Extra.conditioning 1.0) ∧
      (28 ≤ f → r.call.extra = Extra.n_peaks 101) := by
  interval_cases f <;> refine ⟨_, rfl, ?_⟩ <;>
    simp [NoisyWrapper.distribution, listed_distribution, NoisyWrapper.isPlain,
      NoisyWrapper.isConditioned, NoisyWrapper.isGallagher]

/-- Witness of C19 at function 26 (conditioned Uniform, extra scalar 1.0), dimension 5,
instance 2. -/
theorem wrapper_by_residue_and_range_witness :
    ∃ r, coco_get_bbob_noisy_problem (wrap_noisy origin_base) 26 5 2 = some r ∧
      r.call.wrapper.distribution = listed_distribution 26 ∧
      (r.call.wrapper.isPlain = true ↔ (26 ≤ 15 ∨ (19 ≤ 26 ∧ 26 ≤ 21))) ∧
      (r.call.wrapper.isConditioned = true ↔ ((16 ≤ 26 ∧ 26 ≤ 18) ∨ (22 ≤ 26 ∧ 26 ≤ 27))) ∧
      (r.call.wrapper.isGallagher = true ↔ 28 ≤ 26) ∧
      (r.call.wrapper.isPlain = true → r.call.extra = Extra.absent) ∧
      (16 ≤ 26 → 26 ≤ 18 → r.call.extra = Extra.conditioning 1.0e4) ∧
      (22 ≤ 26 → 26 ≤ 24 → r.call.extra = Extra.conditioning 10) ∧
      (25 ≤ 26 → 26 ≤ 27 → r.call.extra = Extra.conditioning 1.0) ∧
      (28 ≤ 26 → r.call.extra = Extra.n_peaks 101) :=
  wrapper_by_residue_and_range (wrap_noisy origin_base) 26 5 2 (by decide) (by decide)

/-- C21: the Gaussian and Cauchy rows carry a constant theta: on a Gaussian row (function id
from 1 to 30 congruent to 1 modulo 3) theta[0] is 0.1 for function 1, 0.01 for function 4
and 1.0 otherwise; on a Cauchy row (function id divisible by 3) theta is `[0.01, 0.05]` for
the functions 3 and 6 and `[1.0, 0.2]` otherwise, whatever the dimension and the
instance. -/
theorem gaussian_cauchy_theta (wrap : WrapCall → coco_problem_t) (f d i : Nat)
    (h1 : 1 ≤ f) (h30 : f ≤ 30) :
    ∃ r, coco_get_bbob_noisy_problem wrap f d i = some r ∧
      (f % 3 = 1 →
        r.call.distribution_theta.off = 0 ∧
        r.call.distribution_theta.deref = some (listed_gaussian_theta0 f)) ∧
      (f % 3 = 0 →
        r.call.distribution_theta = DoublePtr.first (listed_cauchy_theta f)) := by
  interval_cases f <;> refine ⟨_, rfl, ?_, ?_⟩ <;>
    norm_num [listed_gaussian_theta0, listed_cauchy_theta, DoublePtr.first, DoublePtr.deref]

/-- Witness of C21 at function 13 (Gaussian, whose array has two elements), dimension 5,
instance 2. -/
theorem gaussian_cauchy_theta_witness :
    ∃ r, coco_get_bbob_noisy_problem (wrap_noisy origin_base) 13 5 2 = some r ∧
      (13 % 3 = 1 →
        r.call.distribution_theta.off = 0 ∧
        r.call.distribution_theta.deref = some (listed_gaussian_theta0 13)) ∧
      (13 % 3 = 0 →
        r.call.distribution_theta = DoublePtr.first (listed_cauchy_theta 13)) :=
  gaussian_cauchy_theta (wrap_noisy origin_base) 13 5 2 (by decide) (by decide)

/-- C22: for a function id `f` from 1 to 30 the function number passed to the noise wrapper
is `f + 100`, between 101 and 130, and the dimension and the instance are passed unchanged;
two function ids from 1 to 30 whose calls carry the same function number are equal. -/
theorem function_number_passed :
    (∀ (wrap : WrapCall → coco_problem_t) (f d i : Nat), 1 ≤ f → f ≤ 30 →
      ∃ r, coco_get_bbob_noisy_problem wrap f d i = some r ∧
        r.call.function = f + 100 ∧ 101 ≤ r.call.function ∧ r.call.function ≤ 130 ∧
        r.call.dimension = d ∧ r.call.inst = i) ∧
    (∀ (wrap : WrapCall → coco_problem_t) (f g d i : Nat) (rf rg : FactoryRun),
      1 ≤ f → f ≤ 30 → 1 ≤ g → g ≤ 30 →
      coco_get_bbob_noisy_problem wrap f d i = some rf →
      coco_get_bbob_noisy_problem wrap g d i = some rg →
      rf.call.function = rg.call.function → f = g) := by
  have key : ∀ (wrap : WrapCall → coco_problem_t) (f d i : Nat), 1 ≤ f → f ≤ 30 →
      ∃ r, coco_get_bbob_noisy_problem wrap f d i = some r ∧
        r.call.function = f + 100 ∧ 101 ≤ r.call.function ∧ r.call.function ≤ 130 ∧
        r.call.dimension = d ∧ r.call.inst = i := by
    intro wrap f d i h1 h30
    interval_cases f <;>
      exact ⟨_, rfl, rfl, Nat.le_of_ble_eq_true rfl, Nat.le_of_ble_eq_true rfl, rfl, rfl⟩
  refine ⟨key, ?_⟩
  intro wrap f g d i rf rg hf1 hf30 hg1 hg30 ef eg heq
  obtain ⟨r1, e1, n1, -⟩ := key wrap f d i hf1 hf30
  obtain ⟨r2, e2, n2, -⟩ := key wrap g d i hg1 hg30
  rw [ef] at e1
  rw [eg] at e2
  cases e1
  cases e2
  omega

/-- Witness of C22 at function 30, dimension 40, instance 15. -/
theorem function_number_passed_witness :
    ∃ r, coco_get_bbob_noisy_problem (wrap_noisy origin_base) 30 40 15 = some r ∧
      r.call.function = 30 + 100 ∧ 101 ≤ r.call.function ∧ r.call.function ≤ 130 ∧
      r.call.dimension = 40 ∧ r.call.inst = 15 :=
  function_number_passed.1 (wrap_noisy origin_base) 30 40 15 (by decide) (by decide)

/-- C23: for every function id from 1 to 30 the second seed `coco_seed` passed to the noise
wrapper is `(1031 + instance) mod 2 ^ 32`, whatever the function id and the dimension, and
two instances get the same `coco_seed` exactly when they are congruent modulo `2 ^ 32`. -/
theorem coco_seed_passed :
    (∀ (wrap : WrapCall → coco_problem_t) (f d i : Nat), 1 ≤ f → f ≤ 30 →
      ∃ r, coco_get_bbob_noisy_problem wrap f d i = some r ∧
        r.call.coco_seed = (1031 + i) % 2 ^ 32) ∧
    (∀ i j : Nat, coco_seed_of i = coco_seed_of j ↔ i % 2 ^ 32 = j % 2 ^ 32) := by
  constructor
  · intro wrap f d i h1 h30
    interval_cases f <;> exact ⟨_, rfl, coco_seed_of_eq i⟩
  · intro i j
    rw [coco_seed_of_eq, coco_seed_of_eq]
    omega

/-- Witness of C23 at function 24, dimension 5 and the instance `2 ^ 32 + 2`, whose second
seed is 1033. -/
theorem coco_seed_passed_witness :
    ∃ r, coco_get_bbob_noisy_problem (wrap_noisy origin_base) 24 5 (2 ^ 32 + 2) = some r ∧
      r.call.coco_seed = (1031 + (2 ^ 32 + 2)) % 2 ^ 32 :=
  coco_seed_passed.1 (wrap_noisy origin_base) 24 5 (2 ^ 32 + 2) (by decide) (by decide)

end BbobNoisy
